import Mathlib

/-!
Shallow embedding of `src/Benchmark.cpp` (DiskIOBenchmark): a disk benchmark
that sweeps pwrite/pread transfer sizes in powers of two, measuring latency
and bandwidth.  Machine integers are modelled as `Nat`/`Int` with explicit
`% 2^32` (resp. `% 2^64`) where 32-bit (resp. 64-bit) arithmetic could wrap.
The timing primitive (`Cycles.cpp`, referenced by the makefile but not part of
the sources at hand) is modelled from the spec where a claim needs it.
-/

namespace DiskIOBenchmark

/-- `const int minExp = 9;` — minimum power-of-two exponent tested. -/
def minExp : ℕ := 9

/-- `const int maxExp = 28;` — maximum power-of-two exponent tested. -/
def maxExp : ℕ := 28

/-- `const double smallBigThreshold = 1e6;`.  The double literal 1e6 and
every `uint32_t` size converted to double are exactly representable, so
the comparison `size > smallBigThreshold` is the exact comparison
`size > 1000000` on naturals. -/
def smallBigThreshold : ℕ := 1000000

/-- `const int smallCount = 100;` — repetitions for sizes below the threshold. -/
def smallCount : ℕ := 100

/-- `const int largeCount = 3;` — repetitions for sizes at/above the threshold. -/
def largeCount : ℕ := 3

/-- `const int maxSize = 1 << maxExp;` — write-sweep buffer size. -/
def maxSize : ℕ := 2 ^ maxExp

/-- Benchmark.cpp line 89 (write sweep):
`int count = (writeSize > smallBigThreshold) ? largeCount : smallCount;` -/
def writeCount (size : ℕ) : ℕ :=
  if smallBigThreshold < size then largeCount else smallCount

/-- Benchmark.cpp line 179 (read sweep):
`int count = (readSize > smallBigThreshold) ? largeCount : smallCount;` -/
def readCount (size : ℕ) : ℕ :=
  if smallBigThreshold < size then largeCount else smallCount

/-- Read sweep, line 153:
`const int maxSize = std::max((1 << maxExp)*largeCount, (1<<20)*smallCount);`
— total prepopulated file size. -/
def readMaxSize : ℕ := max (2 ^ maxExp * largeCount) (2 ^ 20 * smallCount)

/-- Read sweep, line 180: `uint32_t filePosIncrement = maxSize/count;`
(C `int` division of non-negative values is `Nat` division). -/
def filePosIncrement (size : ℕ) : ℕ := readMaxSize / readCount size

/-- Read sweep, line 185: `int filePos = (i*filePosIncrement) & ~(512 - 1);`.
`i` (int) times `filePosIncrement` (uint32_t) is computed modulo `2^32`;
`~(512 - 1)` converted to `uint32_t` is `2^32 - 512`, so the AND clears the
low 9 bits of the 32-bit product. -/
def readOffset (size i : ℕ) : ℕ :=
  (i * filePosIncrement size % 2 ^ 32) &&& (2 ^ 32 - 512)

/-- Write sweep, lines 86 and 97: `uint32_t filePos = 0;` advanced by
`filePos += writeSize;` after each successful write; `writeFilePos size k` is
the 32-bit file position the k-th write targets. -/
def writeFilePos (size : ℕ) : ℕ → ℕ
  | 0 => 0
  | k + 1 => (writeFilePos size k + size) % 2 ^ 32

/-- Outcome of a benchmark inner loop: either all repetitions completed
(`ops` operations performed), or the process aborted after `ops` attempted
operations by printing a diagnostic via `perror(label)` and calling
`exit(code)`. -/
inductive Outcome where
  | completed (ops : ℕ)
  | aborted (ops : ℕ) (label : String) (code : ℤ)
  deriving DecidableEq

/-- The benchmark inner loop (write sweep lines 91–106, read sweep lines
183–199): performs `rem` more operations after `done` completed ones;
`ioResult k` is the byte count the k-th pwrite/pread returns.  A result
different from `size` makes the loop print a diagnostic via `perror(label)`
and `exit(-1)` at once; otherwise it continues with the next repetition. -/
def runOps (size : ℤ) (label : String) (ioResult : ℕ → ℤ) : ℕ → ℕ → Outcome
  | 0, done => Outcome.completed done
  | rem + 1, done =>
    if ioResult done = size then runOps size label ioResult rem (done + 1)
    else Outcome.aborted (done + 1) label (-1)

/-- `uint64_t` subtraction `a - b` for `a, b < 2^64`. -/
def sub64 (a b : ℕ) : ℕ := (a + 2 ^ 64 - b % 2 ^ 64) % 2 ^ 64

/-- Write sweep inner loop (lines 91–106) with every platform interaction an
oracle: `ioResult k` is the k-th pwrite return value, `fsyncResult k` the k-th
fsync return value — the source never inspects it — and `ts k` the three
`Cycles::rdtsc()` samples (`startWrite`, `fsyncStart`, `stop`) of iteration k.
Returns the final `(filePos, writeCycles, fsyncCycles)` state on completion, or
the abort exit code after a short write. -/
def runWriteIters (size : ℕ) (ioResult fsyncResult : ℕ → ℤ) (ts : ℕ → ℕ × ℕ × ℕ) :
    ℕ → ℕ → ℕ → ℕ → ℕ → (ℕ × ℕ × ℕ) ⊕ ℤ
  | 0, _, pos, wc, fc => Sum.inl (pos, wc, fc)
  | rem + 1, i, pos, wc, fc =>
    if ioResult i = (size : ℤ) then
      let _fsyncReturn := fsyncResult i
      runWriteIters size ioResult fsyncResult ts rem (i + 1) ((pos + size) % 2 ^ 32)
        ((wc + sub64 (ts i).2.1 (ts i).1) % 2 ^ 64)
        ((fc + sub64 (ts i).2.2 (ts i).2.1) % 2 ^ 64)
    else Sum.inr (-1)

/-- Read sweep lines 170–175: the prepopulating `write` is checked
(`maxSize != write(file, buffer, maxSize)` aborts with `exit(-1)`), then
`fsync(file);` is issued with its return value discarded. -/
def readPrepopulate (writeResult fsyncResult : ℤ) : Unit ⊕ ℤ :=
  if writeResult ≠ (readMaxSize : ℤ) then Sum.inr (-1)
  else
    let _fsyncReturn := fsyncResult
    Sum.inl ()

/-- Modelled from the spec: `Cycles::toSeconds` of Cycles.cpp (referenced by
the makefile, not among the sources at hand) — "cycle deltas are converted to
wall-clock seconds via a calibrated cycles-per-second ratio determined once at
startup".  Exact arithmetic over ℚ, parametrized by the calibrated ratio. -/
def toSeconds (cyclesPerSec : ℚ) (cycles : ℕ) : ℚ := (cycles : ℚ) / cyclesPerSec

/-- Write sweep, lines 111–114: `uint64_t totalCycles = writeCycles + fsyncCycles;`
and the bandwidth column `(writeSize/(Cycles::toSeconds(totalCycles)/count))/1e6`. -/
def reportedWriteBandwidth (cyclesPerSec : ℚ)
    (writeSize writeCycles fsyncCycles count : ℕ) : ℚ :=
  ((writeSize : ℚ) /
    (toSeconds cyclesPerSec (writeCycles + fsyncCycles) / (count : ℚ))) / 1000000

/-- Observable resource events of a sweep, in program order: buffer
allocation/free (`posix_memalign`/`free`), file open/close, pwrite/pread with
their transfer size and file offset, `fsync`, and `std::remove` of the target
path. -/
inductive Event where
  | alloc
  | free
  | openFile
  | closeFile
  | writeOp (size off : ℕ)
  | fsyncOp
  | readOp (size off : ℕ)
  | removeFile
  deriving DecidableEq

/-- The transfer size of a pwrite/pread event, if any. -/
def opSize : Event → Option ℕ
  | Event.writeOp s _ => some s
  | Event.readOp s _ => some s
  | _ => none

/-- One write-sweep size iteration (lines 80–117): open, `count` repetitions of
(pwrite at the running file position, fsync), close, remove. -/
def writeSizeBlock (e : ℕ) : List Event :=
  Event.openFile ::
    ((List.range (writeCount (2 ^ e))).flatMap fun k =>
      [Event.writeOp (2 ^ e) (writeFilePos (2 ^ e) k), Event.fsyncOp]) ++
    [Event.closeFile, Event.removeFile]

/-- The write sweep (`benchmark_write`, success path): allocate one buffer, run
every size from `minExp` to `maxExp`, free the buffer. -/
def writeTrace : List Event :=
  Event.alloc ::
    ((List.range (maxExp - minExp + 1)).flatMap fun j => writeSizeBlock (minExp + j)) ++
    [Event.free]

/-- One read-sweep size iteration (lines 177–205): `count` preads at the
512-aligned strided offsets; the file is neither opened nor closed here. -/
def readSizeBlock (e : ℕ) : List Event :=
  (List.range (readCount (2 ^ e))).flatMap fun i =>
    [Event.readOp (2 ^ e) (readOffset (2 ^ e) i)]

/-- The read sweep (`benchmark_read`, success path): allocate one buffer, open
the file once, prepopulate it with one big write plus fsync, run every size,
then close, remove and free once (lines 152–212). -/
def readTrace : List Event :=
  Event.alloc :: Event.openFile :: Event.writeOp readMaxSize 0 :: Event.fsyncOp ::
    ((List.range (maxExp - minExp + 1)).flatMap fun j => readSizeBlock (minExp + j)) ++
    [Event.closeFile, Event.removeFile, Event.free]

/-- `main`'s success-path event trace: write sweep then read sweep
(lines 233–234). -/
def mainTrace : List Event := writeTrace ++ readTrace

/-- Scans a trace keeping running counts of open file descriptors and live
buffers; checks that exactly one file descriptor and one buffer are alive at
every pwrite/pread/fsync event. -/
def checkAlive : List Event → ℕ → ℕ → Bool
  | [], _, _ => true
  | Event.alloc :: rest, fd, buf => checkAlive rest fd (buf + 1)
  | Event.free :: rest, fd, buf => checkAlive rest fd (buf - 1)
  | Event.openFile :: rest, fd, buf => checkAlive rest (fd + 1) buf
  | Event.closeFile :: rest, fd, buf => checkAlive rest (fd - 1) buf
  | Event.removeFile :: rest, fd, buf => checkAlive rest fd buf
  | _ :: rest, fd, buf => (fd == 1 && buf == 1) && checkAlive rest fd buf

/-- The events strictly after the last data operation of transfer size `s1`
and strictly before the first data operation of transfer size `s2`. -/
def betweenSizes (tr : List Event) (s1 s2 : ℕ) : List Event :=
  ((tr.reverse.takeWhile fun ev => decide (opSize ev ≠ some s1)).reverse).takeWhile
    fun ev => decide (opSize ev ≠ some s2)

/-- Does a `closeFile` occur between the operations of size `s1` and those of
size `s2`? -/
def closeBetween (tr : List Event) (s1 s2 : ℕ) : Bool :=
  (betweenSizes tr s1 s2).any fun ev => decide (ev = Event.closeFile)

/-- Does a `removeFile` occur between the operations of size `s1` and those of
size `s2`? -/
def removeBetween (tr : List Event) (s1 s2 : ℕ) : Bool :=
  (betweenSizes tr s1 s2).any fun ev => decide (ev = Event.removeFile)

/-- Number of occurrences of `target` in a trace. -/
def countEvent (tr : List Event) (target : Event) : ℕ :=
  tr.countP fun ev => decide (ev = target)

/-- Number of pwrite/pread events of transfer size `s` in a trace. -/
def sizedOpCount (tr : List Event) (s : ℕ) : ℕ :=
  tr.countP fun ev => decide (opSize ev = some s)

/-- The pwrite/pread events at or after the first occurrence of `target`. -/
def sizedOpsAfterFirst (tr : List Event) (target : Event) : List Event :=
  (tr.dropWhile fun ev => decide (ev ≠ target)).filter fun ev => (opSize ev).isSome

/-- File existence at the target path along a trace: `open(..., O_CREAT, ...)`
creates the file, `std::remove` deletes it; every other event leaves it as is. -/
def fileExistsAfter : List Event → Bool → Bool
  | [], ex => ex
  | Event.openFile :: rest, _ => fileExistsAfter rest true
  | Event.removeFile :: rest, _ => fileExistsAfter rest false
  | _ :: rest, ex => fileExistsAfter rest ex

/-- `static const char *filename = "/tmp/benchmark.tmp";` (line 217). -/
def defaultFilename : String := "/tmp/benchmark.tmp"

/-- Result of `main`: either the usage message plus `exit(code)`, or a full
run of both sweeps against `filename`. -/
inductive MainAction where
  | usageExit (code : ℤ)
  | run (filename : String)
  deriving DecidableEq

/-- `main` (lines 216–235), on `argv` including the program name (so
`argc = argv.length`): with `argc >= 3` it prints the usage text and calls
`exit(-1)` having produced no file I/O (an empty event trace); with
`argc == 2` it runs both sweeps against `argv[1]`; otherwise against the
default path. -/
def mainRun (argv : List String) : MainAction × List Event :=
  if 3 ≤ argv.length then (MainAction.usageExit (-1), [])
  else if argv.length = 2 then (MainAction.run (argv.getD 1 defaultFilename), mainTrace)
  else (MainAction.run defaultFilename, mainTrace)

end DiskIOBenchmark

namespace DiskIOBenchmark

set_option maxRecDepth 100000

/-- If every operation up to `done + rem` returns exactly `size` bytes, the
inner loop completes all remaining repetitions. -/
theorem runOps_all_ok (size : ℤ) (label : String) (io : ℕ → ℤ) (rem done : ℕ)
    (h : ∀ k, done ≤ k → k < done + rem → io k = size) :
    runOps size label io rem done = Outcome.completed (done + rem) := by
  induction rem generalizing done with
  | zero => simp [runOps]
  | succ n ih =>
    rw [runOps, if_pos (h done le_rfl (by omega))]
    rw [ih (done + 1) (fun k hk1 hk2 => h k (by omega) (by omega))]
    congr 1
    omega

/-- The first short operation aborts the inner loop at once: `perror(label)`
and exit code `-1`, with no operation after the failing one. -/
theorem runOps_abort (size : ℤ) (label : String) (io : ℕ → ℤ) (rem done m : ℕ)
    (hm : m < rem) (hok : ∀ j, j < m → io (done + j) = size)
    (hbad : io (done + m) ≠ size) :
    runOps size label io rem done = Outcome.aborted (done + m + 1) label (-1) := by
  induction m generalizing rem done with
  | zero =>
    obtain ⟨rem', rfl⟩ : ∃ r, rem = r + 1 := ⟨rem - 1, by omega⟩
    rw [runOps, if_neg (by simpa using hbad)]
  | succ n ih =>
    obtain ⟨rem', rfl⟩ : ∃ r, rem = r + 1 := ⟨rem - 1, by omega⟩
    rw [runOps, if_pos (by simpa using hok 0 (by omega))]
    have h2 := ih rem' (done + 1) (by omega)
      (fun j hj => by simpa [Nat.add_assoc, Nat.add_comm 1 j] using hok (j + 1) (by omega))
      (by simpa [Nat.add_assoc, Nat.add_comm 1 n] using hbad)
    rw [h2]
    congr 1
    omega

/-- The write-sweep inner loop never branches on the fsync oracle: its whole
result, the accumulated fsync cycles included, is the same for any two fsync
return-value assignments. -/
theorem runWriteIters_fsync_indep (size : ℕ) (io f1 f2 : ℕ → ℤ)
    (ts : ℕ → ℕ × ℕ × ℕ) (rem i pos wc fc : ℕ) :
    runWriteIters size io f1 ts rem i pos wc fc =
      runWriteIters size io f2 ts rem i pos wc fc := by
  induction rem generalizing i pos wc fc with
  | zero => rfl
  | succ n ih =>
    rw [runWriteIters, runWriteIters]
    split
    · exact ih _ _ _ _
    · rfl

/-- Claim C1: in the read sweep, with total prepopulated size
`readMaxSize = max ((2^maxExp) * largeCount) ((2^20) * smallCount)` and the
repetition count chosen for read size `2^e`, the stride `filePosIncrement`
equals the integer quotient `readMaxSize / count`, and every chosen offset
equals `i * stride` with the low 9 bits cleared, is a multiple of 512, and
lies within `[0, readMaxSize - 2^e]`. -/
theorem read_offset_stride_spec :
    ∀ e, minExp ≤ e → e ≤ maxExp →
      filePosIncrement (2 ^ e) = readMaxSize / readCount (2 ^ e) ∧
      ∀ i, i < readCount (2 ^ e) →
        readOffset (2 ^ e) i = i * (readMaxSize / readCount (2 ^ e)) / 512 * 512 ∧
        512 ∣ readOffset (2 ^ e) i ∧
        readOffset (2 ^ e) i + 2 ^ e ≤ readMaxSize := by decide

/-- Claim C1 witness: the last strided offset at the smallest read size. -/
theorem read_offset_stride_spec_witness :
    readOffset (2 ^ 9) 99 = 99 * (readMaxSize / readCount (2 ^ 9)) / 512 * 512 :=
  ((read_offset_stride_spec 9 (by decide) (by decide)).2 99 (by decide)).1

/-- Claim C2 counterexample: at a transfer size exactly equal to the byte
threshold (10^6), both sweeps select `smallCount` (the code compares with
strict `>`), not `largeCount` as the claim states. -/
theorem repCount_threshold_counterexample :
    writeCount smallBigThreshold = smallCount ∧
    readCount smallBigThreshold = smallCount ∧
    writeCount smallBigThreshold ≠ largeCount := by decide

/-- Claim C2 as amended: the repetition count is a pure function of the size,
equal to `largeCount` for sizes strictly above the threshold and `smallCount`
otherwise; the write and read sweeps use the same rule; and on the configured
power-of-two sizes (none of which equals 10^6) this coincides with the
claimed `S < threshold` / `S ≥ threshold` rule. -/
theorem repCount_rule_amended :
    (∀ S : ℕ, writeCount S = if smallBigThreshold < S then largeCount else smallCount) ∧
    (∀ S : ℕ, readCount S = writeCount S) ∧
    (∀ e, minExp ≤ e → e ≤ maxExp →
      writeCount (2 ^ e) = if 2 ^ e < smallBigThreshold then smallCount else largeCount) :=
  ⟨fun _ => rfl, fun _ => rfl, by decide⟩

/-- Claim C2 witness: the first size at or above the threshold gets
`largeCount` repetitions. -/
theorem repCount_rule_amended_witness :
    writeCount (2 ^ 20) = if 2 ^ 20 < smallBigThreshold then smallCount else largeCount :=
  repCount_rule_amended.2.2 20 (by decide) (by decide)

/-- Claim C3: for every configured transfer size `2^e`, the sweep performs
exactly the selected repetition count of operations when every pwrite/pread
transfers exactly `2^e` bytes, and otherwise the first short operation makes
the process print a diagnostic via `perror(label)` and exit with the non-zero
status `-1` immediately: no retry and no operation after the failing one. -/
theorem sweep_count_or_abort :
    ∀ e, minExp ≤ e → e ≤ maxExp → ∀ (label : String) (io : ℕ → ℤ),
      readCount (2 ^ e) = writeCount (2 ^ e) ∧
      ((∀ k, k < writeCount (2 ^ e) → io k = (2 ^ e : ℤ)) →
        runOps (2 ^ e) label io (writeCount (2 ^ e)) 0 =
          Outcome.completed (writeCount (2 ^ e))) ∧
      (∀ m, m < writeCount (2 ^ e) → (∀ j, j < m → io j = (2 ^ e : ℤ)) →
        io m ≠ (2 ^ e : ℤ) →
        runOps (2 ^ e) label io (writeCount (2 ^ e)) 0 =
          Outcome.aborted (m + 1) label (-1) ∧ (-1 : ℤ) ≠ 0) := by
  intro e _ _ label io
  refine ⟨rfl, fun h => ?_, fun m hm hok hbad => ⟨?_, by decide⟩⟩
  · simpa using runOps_all_ok (2 ^ e) label io (writeCount (2 ^ e)) 0
      (fun k _ hk => h k (by omega))
  · simpa using runOps_abort (2 ^ e) label io (writeCount (2 ^ e)) 0 m hm
      (fun j hj => by simpa using hok j hj) (by simpa using hbad)

/-- Claim C3 witness: an all-successful run of the smallest write size
completes exactly `writeCount (2^9) = 100` operations. -/
theorem sweep_count_or_abort_witness :
    runOps (2 ^ 9) "Write" (fun _ => (2 ^ 9 : ℤ)) (writeCount (2 ^ 9)) 0 =
      Outcome.completed (writeCount (2 ^ 9)) :=
  (sweep_count_or_abort 9 (by decide) (by decide) "Write" fun _ => (2 ^ 9 : ℤ)).2.1
    fun _ _ => rfl

/-- Claim C4: in the write sweep the file position starts at 0 and advances by
exactly the transfer size after each successful write, so the k-th write
targets offset `k * 2^e` and the regions of two successive writes never
overlap. -/
theorem write_offsets_spec :
    ∀ e, minExp ≤ e → e ≤ maxExp →
      writeFilePos (2 ^ e) 0 = 0 ∧
      ∀ k, k < writeCount (2 ^ e) →
        writeFilePos (2 ^ e) k = k * 2 ^ e ∧
        writeFilePos (2 ^ e) (k + 1) = writeFilePos (2 ^ e) k + 2 ^ e ∧
        ∀ j, j < k → j * 2 ^ e + 2 ^ e ≤ k * 2 ^ e := by decide

/-- Claim C4 witness: the third write of the largest size targets `2 * 2^28`. -/
theorem write_offsets_spec_witness :
    writeFilePos (2 ^ 28) 2 = 2 * 2 ^ 28 :=
  ((write_offsets_spec 28 (by decide) (by decide)).2 2 (by decide)).1

/-- Claim C5: the reported write bandwidth equals the transfer size divided by
the mean per-operation time — the sum of accumulated write cycles and fsync
cycles divided by the repetition count and converted to seconds — scaled to
MB/s by a further division by 10^6.  The durability-sync cost thus sits in
the bandwidth denominator. -/
theorem write_bandwidth_spec (cyclesPerSec : ℚ) (S wc fc c : ℕ) :
    reportedWriteBandwidth cyclesPerSec S wc fc c =
      (S : ℚ) / ((((wc : ℚ) + (fc : ℚ)) / (c : ℚ)) / cyclesPerSec) / 1000000 := by
  simp only [reportedWriteBandwidth, toSeconds, Nat.cast_add]
  rw [div_right_comm ((wc : ℚ) + (fc : ℚ)) cyclesPerSec (c : ℚ)]

/-- Claim C6 counterexample: the read trace contains the full complement of
operations at sizes `2^9` and `2^10`, yet no `closeFile` event occurs between
them — the read sweep does not close its descriptor before moving to the next
transfer size. -/
theorem fd_closed_between_sizes_counterexample :
    sizedOpCount readTrace (2 ^ 9) = readCount (2 ^ 9) ∧
    sizedOpCount readTrace (2 ^ 10) = readCount (2 ^ 10) ∧
    closeBetween readTrace (2 ^ 9) (2 ^ 10) = false := by decide

/-- Claim C6 as amended: in both sweeps exactly one buffer and one file
descriptor are alive at every I/O operation, with one allocation and one free
per sweep; the write sweep closes the descriptor opened for a size before
moving to the next size; the read sweep instead opens a single descriptor
once before the size loop and closes it once after the final size, with no
I/O operation after that close. -/
theorem resource_lifecycle_amended :
    checkAlive writeTrace 0 0 = true ∧
    checkAlive readTrace 0 0 = true ∧
    countEvent writeTrace Event.alloc = 1 ∧
    countEvent writeTrace Event.free = 1 ∧
    countEvent readTrace Event.alloc = 1 ∧
    countEvent readTrace Event.free = 1 ∧
    (∀ j, j < maxExp - minExp →
      closeBetween writeTrace (2 ^ (minExp + j)) (2 ^ (minExp + j + 1)) = true) ∧
    countEvent readTrace Event.openFile = 1 ∧
    countEvent readTrace Event.closeFile = 1 ∧
    sizedOpsAfterFirst readTrace Event.closeFile = [] := by decide

/-- Claim C6 witness: the write sweep closes its descriptor between the first
two sizes. -/
theorem resource_lifecycle_amended_witness :
    closeBetween writeTrace (2 ^ (minExp + 0)) (2 ^ (minExp + 0 + 1)) = true :=
  resource_lifecycle_amended.2.2.2.2.2.2.1 0 (by decide)

/-- Claim C7: the write sweep removes the target file after finishing each
transfer size (a `removeFile` between any two consecutive sizes, and one per
size overall); the read sweep removes it exactly once, after all its read
operations; and on normal completion of the whole program no file exists at
the target path, whether or not one existed beforehand. -/
theorem file_cleanup_spec :
    (∀ j, j < maxExp - minExp →
      removeBetween writeTrace (2 ^ (minExp + j)) (2 ^ (minExp + j + 1)) = true) ∧
    countEvent writeTrace Event.removeFile = maxExp - minExp + 1 ∧
    countEvent readTrace Event.removeFile = 1 ∧
    sizedOpsAfterFirst readTrace Event.removeFile = [] ∧
    fileExistsAfter mainTrace false = false ∧
    fileExistsAfter mainTrace true = false := by decide

/-- Claim C7 witness: the write sweep removes the file between the first two
sizes. -/
theorem file_cleanup_spec_witness :
    removeBetween writeTrace (2 ^ (minExp + 0)) (2 ^ (minExp + 0 + 1)) = true :=
  file_cleanup_spec.1 0 (by decide)

/-- Claim C8: invoked with two or more positional arguments (`argc ≥ 3`) the
program prints usage text and exits with the non-zero status `-1` having
performed no file I/O; with exactly one positional argument that argument is
the target path; with none the fixed default `/tmp/benchmark.tmp` is used. -/
theorem main_cli_spec (argv : List String) :
    (3 ≤ argv.length →
      mainRun argv = (MainAction.usageExit (-1), []) ∧ (-1 : ℤ) ≠ 0) ∧
    (argv.length = 2 →
      (mainRun argv).1 = MainAction.run (argv.getD 1 defaultFilename)) ∧
    (argv.length ≤ 1 → (mainRun argv).1 = MainAction.run defaultFilename) := by
  refine ⟨fun h3 => ⟨?_, by decide⟩, fun h2 => ?_, fun h1 => ?_⟩
  · rw [mainRun, if_pos h3]
  · rw [mainRun, if_neg (by omega), if_pos h2]
  · rw [mainRun, if_neg (by omega), if_neg (by omega)]

/-- Claim C8 witness: a three-entry argv (two positional arguments) yields the
usage exit with no file I/O. -/
theorem main_cli_spec_witness :
    mainRun ["Benchmark", "a", "b"] = (MainAction.usageExit (-1), []) ∧
      (-1 : ℤ) ≠ 0 :=
  (main_cli_spec ["Benchmark", "a", "b"]).1 (by decide)

/-- Claim C9: the fsync return value is ignored in both sweeps — the entire
write-sweep loop result (outcome, file position, and both cycle accumulators,
the reported fsync latency included) and the read-sweep prepopulation result
are identical under any two assignments of fsync return values, so a failed
sync never aborts, is never reported, and its cycles are still accumulated. -/
theorem fsync_result_ignored (size : ℕ) (io f1 f2 : ℕ → ℤ) (ts : ℕ → ℕ × ℕ × ℕ)
    (rem i pos wc fc : ℕ) (w g1 g2 : ℤ) :
    runWriteIters size io f1 ts rem i pos wc fc =
      runWriteIters size io f2 ts rem i pos wc fc ∧
    readPrepopulate w g1 = readPrepopulate w g2 :=
  ⟨runWriteIters_fsync_indep size io f1 f2 ts rem i pos wc fc, rfl⟩

/-- Claim C10: under the configured constants no offset computation overflows
its integer type: the write-sweep 32-bit file position equals the exact value
`k * 2^e`, bounded by `count * 2^e ≤ 3 * 2^28 < 2^32`, and the read-sweep
offset product `i * filePosIncrement` is bounded by
`(count - 1) * filePosIncrement < 2^31` (so it fits a signed int) and is
unchanged by reduction modulo `2^32`, with
`readMaxSize = max (3 * 2^28) (100 * 2^20)`. -/
theorem no_overflow_spec :
    readMaxSize = max (largeCount * 2 ^ 28) (smallCount * 2 ^ 20) ∧
    (∀ e, minExp ≤ e → e ≤ maxExp →
      (writeCount (2 ^ e) * 2 ^ e ≤ largeCount * 2 ^ 28 ∧ largeCount * 2 ^ 28 < 2 ^ 32) ∧
      (∀ k, k ≤ writeCount (2 ^ e) → writeFilePos (2 ^ e) k = k * 2 ^ e ∧
        k * 2 ^ e ≤ writeCount (2 ^ e) * 2 ^ e) ∧
      (readCount (2 ^ e) - 1) * filePosIncrement (2 ^ e) < 2 ^ 31 ∧
      ∀ i, i < readCount (2 ^ e) →
        i * filePosIncrement (2 ^ e) ≤ (readCount (2 ^ e) - 1) * filePosIncrement (2 ^ e) ∧
        i * filePosIncrement (2 ^ e) % 2 ^ 32 = i * filePosIncrement (2 ^ e)) := by
  refine ⟨by decide, by decide⟩

/-- Claim C10 witness: the largest read-sweep offset product stays below
`2^31`. -/
theorem no_overflow_spec_witness :
    (readCount (2 ^ 28) - 1) * filePosIncrement (2 ^ 28) < 2 ^ 31 :=
  ((no_overflow_spec.2 28 (by decide) (by decide)).2.2).1

end DiskIOBenchmark
